import Mathlib

/-!
Verification development for the Trojan Defender scanner subsystem.

Shallow embedding of:
 - backend/scanner/utils.py   (scan_with_clamav, compile_yara_rules,
   scan_with_yara, determine_threat_level)
 - backend/scanner/tasks.py   (scan_file, determine_threat_level_with_virustotal)
 - backend/scanner/signals.py (update_scan_result_threat_level)
 - backend/scanner/models.py  (status / threat-level enumerations)
 - backend/trojan_defender/exceptions.py (custom_exception_handler)

External effects (ClamAV daemon, YARA engine, filesystem, database) are
modelled by explicit environment records describing the outcome of each
external call; every Python function is translated into a total Lean
function over those environments.
-/

namespace TrojanDefender

/-- A threat dictionary as built by `scan_with_clamav` / `scan_with_yara`
in `backend/scanner/utils.py`.  The YARA path additionally stores
`namespace` and `string_matches` metadata, which no aggregation code
reads; only the fields consumed downstream are kept here. -/
structure ThreatDict where
  name : String
  threat_type : String
  description : String
  location : String
  detection_engine : String
  detection_rule : String
  severity : String
  tags : List String := []
deriving DecidableEq, Repr

/-- An engine result dictionary: every return value of `scan_with_clamav`
and `scan_with_yara` has exactly the keys `status`, `message`, `threats`. -/
structure EngineResult where
  status : String
  message : String
  threats : List ThreatDict
deriving DecidableEq, Repr

/-- The `ScanResult.ScanStatus` choices declared in
`backend/scanner/models.py` (lines 10-14). -/
def scanStatusValues : List String :=
  ["pending", "scanning", "completed", "failed"]

/-- The `ScanResult.ThreatLevel` choices declared in
`backend/scanner/models.py` (lines 16-21). -/
def threatLevelValues : List String :=
  ["clean", "low", "medium", "high", "critical"]

/-- Ordinal rank of a threat level, following the glossary order
clean < low < medium < high < critical.  Strings outside the
enumeration rank lowest. -/
def threatLevelRank (l : String) : Nat :=
  if l = "critical" then 4
  else if l = "high" then 3
  else if l = "medium" then 2
  else if l = "low" then 1
  else 0

/-- `determine_threat_level` from `backend/scanner/utils.py` (lines 437-467),
transcribed branch by branch. -/
def determine_threat_level (clamav_result yara_result : EngineResult) : String :=
  let _clamav_threats := clamav_result.threats.length
  let yara_threats := yara_result.threats.length
  if clamav_result.status = "error" ∧ yara_result.status = "error" then
    "unknown"
  else if clamav_result.status = "infected" then
    "high"
  else if yara_result.status = "suspicious" then
    let high_severity_count :=
      (yara_result.threats.filter (fun t => t.severity == "high")).length
    if high_severity_count > 0 then "high"
    else if yara_threats ≥ 3 then "medium"
    else "low"
  else
    "clean"

/-- `determine_threat_level_with_virustotal` from `backend/scanner/tasks.py`
(lines 263-303), with the third argument a list of threat dictionaries, the
typing its body assumes (`len(virustotal_threats)`, iteration with
`threat.get('severity')`). -/
def determine_threat_level_with_virustotal
    (clamav_result yara_result : EngineResult)
    (virustotal_threats : List ThreatDict) : String :=
  let clamav_threats := clamav_result.threats.length
  let yara_threats := yara_result.threats.length
  let vt_threats := virustotal_threats.length
  if clamav_result.status = "error" ∧ yara_result.status = "error" ∧
      vt_threats = 0 then
    "unknown"
  else if clamav_result.status = "infected" ∨
      virustotal_threats.any (fun t => t.severity == "high") then
    "high"
  else
    let total_detections := clamav_threats + yara_threats + vt_threats
    if total_detections ≥ 3 then "high"
    else if total_detections ≥ 1 then
      let high_severity_count :=
        (yara_result.threats.filter (fun t => t.severity == "high")).length
        + (virustotal_threats.filter (fun t => t.severity == "high")).length
      if high_severity_count > 0 then "high"
      else if total_detections ≥ 2 then "medium"
      else "low"
    else
      "clean"

/-- Evaluation of `determine_threat_level_with_virustotal` when the third
argument is a Python dict rather than a list, which is what
`scan_file` (tasks.py lines 178-182) actually passes: `len` counts the
dict keys and iteration yields the key strings, so the generator
`threat.get('severity')` inside `any(...)` raises `AttributeError` as
soon as one key exists.  `ks` is the list of keys of that dict. -/
def determine_threat_level_with_virustotal_onDict
    (clamav_result yara_result : EngineResult)
    (ks : List String) : Except String String :=
  let vt_threats := ks.length
  if clamav_result.status = "error" ∧ yara_result.status = "error" ∧
      vt_threats = 0 then
    .ok "unknown"
  else if clamav_result.status = "infected" then
    .ok "high"
  else if ks ≠ [] then
    .error "AttributeError: str object has no attribute get"
  else
    let total_detections :=
      clamav_result.threats.length + yara_result.threats.length
    if total_detections ≥ 3 then .ok "high"
    else if total_detections ≥ 1 then
      let high_severity_count :=
        (yara_result.threats.filter (fun t => t.severity == "high")).length
      if high_severity_count > 0 then .ok "high"
      else if total_detections ≥ 2 then .ok "medium"
      else .ok "low"
    else
      .ok "clean"

/-- Outcome of the ClamAV daemon connection loop in `scan_with_clamav`
(utils.py lines 52-83): either the constructor raised on the final
attempt (the only path that returns an error dictionary there), or the
function proceeds with a daemon handle. -/
inductive ClamConnOutcome where
  | failedAll (msg : String)
  | connected
deriving DecidableEq, Repr

/-- One entry of the dictionary returned by `pyclamd`'s `cd.scan_file`:
scanned path mapped to a `(verdict, threat name)` pair; the parser at
utils.py lines 114-128 keeps entries whose verdict is `FOUND`. -/
structure ClamScanItem where
  path : String
  verdict : String
  threatName : String
deriving DecidableEq, Repr

/-- Outcome of the `cd.scan_file` call (utils.py line 104): an exception
(handled by the enclosing `except`), or a result that is either `None`
(clean) or a dictionary of per-file findings. -/
inductive ClamScanOutcome where
  | raises (msg : String)
  | result (r : Option (List ClamScanItem))
deriving DecidableEq, Repr

/-- Environment describing the external effects observed by one
`scan_with_clamav` call. -/
structure ClamEnv where
  conn : ClamConnOutcome
  fileExists : Bool
  fileReadable : Bool
  scanOutcome : ClamScanOutcome
deriving DecidableEq, Repr

/-- `scan_with_clamav` from `backend/scanner/utils.py` (lines 47-147).
The outer `try/except` makes every exceptional outcome return an error
dictionary, so the embedding is a total function of the environment. -/
def scan_with_clamav (file_path : String) (env : ClamEnv) : EngineResult :=
  match env.conn with
  | .failedAll msg =>
      ⟨"error", "ClamAV daemon not available after 3 attempts: " ++ msg, []⟩
  | .connected =>
    if ¬env.fileExists then
      ⟨"error", "File not found: " ++ file_path, []⟩
    else if ¬env.fileReadable then
      ⟨"error", "File not readable: " ++ file_path, []⟩
    else
      match env.scanOutcome with
      | .raises msg => ⟨"error", "ClamAV scan failed: " ++ msg, []⟩
      | .result none => ⟨"clean", "No threats detected by ClamAV", []⟩
      | .result (some items) =>
        let threats := (items.filter (fun i => i.verdict == "FOUND")).map
          (fun i =>
            { name := i.threatName
              threat_type := "malware"
              description := "ClamAV detected: " ++ i.threatName
              location := i.path
              detection_engine := "ClamAV"
              detection_rule := i.threatName
              severity := "high" : ThreatDict })
        let status := if threats ≠ [] then "infected" else "clean"
        ⟨status,
         "ClamAV scan completed. Found " ++ toString threats.length ++
           " threats.", threats⟩

/-- A `YaraRule` row (models.py lines 78-93): the fields read by
`compile_yara_rules`. -/
structure YaraRuleRec where
  name : String
  rule_content : String
  is_active : Bool
deriving DecidableEq, Repr

/-- Python's substring test `pat in s` for a non-empty pattern, via
`splitOn`. -/
def containsSubstr (s pat : String) : Bool :=
  (s.splitOn pat).length ≥ 2

/-- `compile_yara_rules` from `backend/scanner/utils.py` (lines 149-240):
returns `none` whenever the DB lookup ultimately fails, no active rule
exists, no rule passes the content validation, or `yara.compile` fails;
otherwise the compiled rule set, represented by the list of validated
rules (rule names are unique in the database, so the dict insertion
order is the filtered list). -/
def compile_yara_rules (rules : List YaraRuleRec) (dbOk compileOk : Bool) :
    Option (List YaraRuleRec) :=
  if ¬dbOk then none
  else
    let active_rules := rules.filter (fun r => r.is_active)
    if active_rules = [] then none
    else
      let rules_dict := active_rules.filter (fun r =>
        !(r.rule_content.trim == "") && containsSubstr r.rule_content "rule ")
      if rules_dict = [] then none
      else if compileOk then some rules_dict else none

/-- Outcome of the compile-retry loop in `scan_with_yara` (utils.py
lines 247-273): either `compile_yara_rules` raised on the final attempt
(error return), or the loop completed and the value of
`compile_yara_rules` decides the next step. -/
inductive YaraCompilePhase where
  | raisesAll (msg : String)
  | completes
deriving DecidableEq, Repr

/-- One YARA match as consumed by the loop at utils.py lines 340-387. -/
structure YaraMatch where
  rule : String
  tags : List String
deriving DecidableEq, Repr

/-- Outcome of `compiled_rules.match` (utils.py lines 318-335). -/
inductive YaraMatchOutcome where
  | timeout
  | yaraError (msg : String)
  | matched (ms : List YaraMatch)
deriving DecidableEq, Repr

/-- Environment for one `scan_with_yara` call. `fileSize = none` models
`os.path.getsize` raising `OSError`, in which case the size check is
skipped (utils.py lines 300-313). -/
structure YaraScanEnv where
  compilePhase : YaraCompilePhase
  dbOk : Bool
  compileOk : Bool
  fileExists : Bool
  fileReadable : Bool
  fileSize : Option Nat
  maxFileSize : Nat
  matchOutcome : YaraMatchOutcome
deriving DecidableEq, Repr

/-- Severity assignment for a YARA match from its tags (utils.py
lines 347-352): default `medium`, raised to `high` or lowered to `low`
by designated tags. -/
def yaraSeverityFromTags (tags : List String) : String :=
  if tags.any (fun tag =>
      ["critical", "high", "malware", "trojan", "virus"].contains
        tag.toLower) then "high"
  else if tags.any (fun tag =>
      ["low", "info", "suspicious"].contains tag.toLower) then "low"
  else "medium"

/-- The match-and-translate phase of `scan_with_yara` (utils.py
lines 315-435), after the compilation, existence, readability and size
checks have passed.  The database `Threat.objects.create` block swallows
all of its own exceptions and does not affect the returned dictionary. -/
def scan_with_yara_matchPhase (file_path : String)
    (outcome : YaraMatchOutcome) : EngineResult :=
  match outcome with
  | .timeout => ⟨"error", "YARA scan timeout", []⟩
  | .yaraError msg => ⟨"error", "YARA scan error: " ++ msg, []⟩
  | .matched ms =>
    let threats := ms.map (fun m =>
      { name := m.rule
        threat_type := "pattern_match"
        description := "YARA rule match: " ++ m.rule
        location := file_path
        detection_engine := "YARA"
        detection_rule := m.rule
        severity := yaraSeverityFromTags m.tags
        tags := m.tags : ThreatDict })
    let status := if threats ≠ [] then "infected" else "clean"
    ⟨status,
     "YARA scan completed. Found " ++ toString threats.length ++ " threats.",
     threats⟩

/-- `scan_with_yara` from `backend/scanner/utils.py` (lines 242-435). -/
def scan_with_yara (file_path : String) (rules : List YaraRuleRec)
    (env : YaraScanEnv) : EngineResult :=
  match env.compilePhase with
  | .raisesAll _ =>
      ⟨"error", "YARA rules compilation failed after 3 attempts", []⟩
  | .completes =>
    match compile_yara_rules rules env.dbOk env.compileOk with
    | none => ⟨"clean", "No YARA rules available for scanning", []⟩
    | some _ =>
      if ¬env.fileExists then
        ⟨"error", "File not found: " ++ file_path, []⟩
      else if ¬env.fileReadable then
        ⟨"error", "File not readable: " ++ file_path, []⟩
      else
        match env.fileSize with
        | some sz =>
          if sz > env.maxFileSize then
            ⟨"skipped",
             "File too large for YARA scan: " ++ toString sz ++ " bytes", []⟩
          else scan_with_yara_matchPhase file_path env.matchOutcome
        | none => scan_with_yara_matchPhase file_path env.matchOutcome

/-- The fields of a `ScanResult` row (models.py lines 7-42) read and
written by the `scan_file` task. -/
structure ScanRecord where
  status : String
  threat_level : String
  error_message : Option String
  threats_found : Nat
  storage_path : String
deriving DecidableEq, Repr

/-- Environment for one `scan_file` task execution on an existing
`ScanResult` row.  `fileExists` / `fileReadable` describe the checks at
tasks.py lines 89 and 99; the engine environments describe the external
calls made afterwards. -/
structure ScanFileEnv where
  fileExists : Bool
  fileReadable : Bool
  clamEnv : ClamEnv
  yaraRules : List YaraRuleRec
  yaraEnv : YaraScanEnv
  virustotalEnabled : Bool
deriving DecidableEq, Repr

/-- Result of one `scan_file` execution: the final row, the successive
values assigned to `scan_result.status` (in order), and the scan engines
invoked. -/
structure ScanFileOutcome where
  record : ScanRecord
  statusTrace : List String
  enginesInvoked : List String
deriving DecidableEq, Repr

/-- `scan_file` from `backend/scanner/tasks.py` (lines 40-260), for an
execution in which the `ScanResult` row exists and saves succeed (the
DB-retry, WebSocket and Celery-retry wrappers do not change the stored
row on this path).  Control flow transcribed in order:
status `running` at line 76; missing / unreadable file early returns at
lines 89-107; ClamAV, then YARA, then (if enabled) VirusTotal; when
VirusTotal is enabled, `scan_with_virustotal` returns a list, so the
subscript `virustotal_result['status']` at line 161 raises `TypeError`
and the handler at lines 166-172 replaces the entry with an error
dictionary (keys `status`, `message`, `threats`); when disabled the
entry stays the initial dictionary with keys `status`, `threats`.  The
threat level is whatever `determine_threat_level_with_virustotal`
returns on engine dictionaries plus that dict, with any exception mapped
to `unknown` by the handler at lines 185-187. -/
def scan_file (rec : ScanRecord) (env : ScanFileEnv) : ScanFileOutcome :=
  let rec1 : ScanRecord := { rec with status := "running" }
  if ¬env.fileExists then
    { record := { rec1 with
        status := "failed"
        error_message := some ("File not found: " ++ rec.storage_path) }
      statusTrace := ["running", "failed"]
      enginesInvoked := [] }
  else if ¬env.fileReadable then
    { record := { rec1 with
        status := "failed"
        error_message := some ("File not readable: " ++ rec.storage_path) }
      statusTrace := ["running", "failed"]
      enginesInvoked := [] }
  else
    let clamav_result := scan_with_clamav rec.storage_path env.clamEnv
    let yara_result := scan_with_yara rec.storage_path env.yaraRules env.yaraEnv
    let vtDictKeys : List String :=
      if env.virustotalEnabled then ["status", "message", "threats"]
      else ["status", "threats"]
    let threat_level :=
      match determine_threat_level_with_virustotal_onDict
          clamav_result yara_result vtDictKeys with
      | .ok l => l
      | .error _ => "unknown"
    let all_threats := clamav_result.threats ++ yara_result.threats
    { record := { rec1 with
        status := "completed"
        threat_level := threat_level
        threats_found := all_threats.length
        error_message := none }
      statusTrace := ["running", "completed"]
      enginesInvoked :=
        ["clamav", "yara"] ++
          (if env.virustotalEnabled then ["virustotal"] else []) }

/-- `update_scan_result_threat_level` from `backend/scanner/signals.py`
(lines 114-138): the `post_save` handler run when a `ScanThreat` is
created, as a function of the severities of all threats of the scan and
the current `threat_level`. -/
def update_scan_result_threat_level (severities : List String)
    (threat_level : String) : String :=
  if "critical" ∈ severities ∧ threat_level ≠ "critical" then
    "critical"
  else if "high" ∈ severities ∧
      threat_level ∉ (["critical", "high"] : List String) then
    "high"
  else if "medium" ∈ severities ∧
      threat_level ∉ (["critical", "high", "medium"] : List String) then
    "medium"
  else if threat_level = "clean" then
    "low"
  else
    threat_level

/-- Observable state of one `ScanResult` row together with the
severities of its `ScanThreat` rows. -/
structure ScanState where
  threat_level : String
  threat_severities : List String
deriving DecidableEq, Repr

/-- The operations of the system that touch a scan's `threat_level`:
creating a `ScanThreat` row (which fires the `post_save` handler), and
the completion step of `scan_file` (tasks.py lines 195-203), which
assigns the engine-aggregate level. -/
inductive ScanStep where
  | addThreat (severity : String)
  | completeScan (clamav_result yara_result : EngineResult)
      (virustotalEnabled : Bool)
deriving DecidableEq, Repr

/-- One step of the scan state machine. -/
def applyStep (s : ScanState) (step : ScanStep) : ScanState :=
  match step with
  | .addThreat severity =>
    let severities := s.threat_severities ++ [severity]
    { threat_level := update_scan_result_threat_level severities s.threat_level
      threat_severities := severities }
  | .completeScan clamav_result yara_result virustotalEnabled =>
    let vtDictKeys : List String :=
      if virustotalEnabled then ["status", "message", "threats"]
      else ["status", "threats"]
    let lvl :=
      match determine_threat_level_with_virustotal_onDict
          clamav_result yara_result vtDictKeys with
      | .ok l => l
      | .error _ => "unknown"
    { s with threat_level := lvl }

/-- The exception classes of
`backend/trojan_defender/exceptions.py` (lines 17-59), all direct
subclasses of `TrojanDefenderException`. -/
inductive ExcKind where
  | scanner
  | threatIntelligence
  | authentication
  | validation
  | rateLimit
  | fileUpload
  | externalAPI
  | base
deriving DecidableEq, Repr

/-- A raised `TrojanDefenderException`: class plus the constructor
arguments (exceptions.py lines 20-24). -/
structure AppExc where
  kind : ExcKind
  message : String
  error_code : Option String
  details : List (String × String)
deriving DecidableEq, Repr

/-- The inner `error` object of the structured response body built at
exceptions.py lines 79-88 (the code additionally inserts a logging
timestamp, read by nothing). -/
structure ErrorBody where
  message : String
  code : String
  details : List (String × String)
deriving DecidableEq, Repr

/-- `custom_exception_handler` from
`backend/trojan_defender/exceptions.py` (lines 62-104), restricted to
the `TrojanDefenderException` branch: the structured body and the HTTP
status chosen by the `isinstance` chain at lines 91-102. -/
def custom_exception_handler (e : AppExc) : ErrorBody × Nat :=
  ({ message := e.message
     code := e.error_code.getD "UNKNOWN_ERROR"
     details := e.details },
   match e.kind with
   | .validation => 400
   | .authentication => 401
   | .rateLimit => 429
   | .fileUpload => 413
   | .externalAPI => 502
   | _ => 500)

/-- Largest threat-level rank occurring in a severity list (0 when the
list is empty). -/
def maxSevRank (severities : List String) : Nat :=
  severities.foldr (fun s acc => max (threatLevelRank s) acc) 0

/-- A clean ClamAV engine result, as returned at utils.py line 108. -/
def engCleanClam : EngineResult :=
  ⟨"clean", "No threats detected by ClamAV", []⟩

/-- A clean YARA engine result (no matches), utils.py lines 418-427. -/
def engCleanYara : EngineResult :=
  ⟨"clean", "YARA scan completed. Found 0 threats.", []⟩

/-- A ClamAV error result (daemon unreachable), utils.py lines 79-83. -/
def engErrorClam : EngineResult :=
  ⟨"error",
   "ClamAV daemon not available after 3 attempts: connection refused", []⟩

/-- A YARA error result (scan timeout), utils.py lines 324-328. -/
def engErrorYara : EngineResult :=
  ⟨"error", "YARA scan timeout", []⟩

/-- A medium-severity YARA threat dictionary (default severity,
utils.py line 348). -/
def yaraThreatMedium : ThreatDict :=
  ⟨"SuspiciousStrings", "pattern_match",
   "YARA rule match: SuspiciousStrings", "/files/sample.bin", "YARA",
   "SuspiciousStrings", "medium", []⟩

/-- A YARA engine result with exactly one medium-severity finding. -/
def yaraOneMedium : EngineResult :=
  ⟨"infected", "YARA scan completed. Found 1 threats.", [yaraThreatMedium]⟩

/-- The threat dictionary ClamAV builds for an EICAR detection
(utils.py lines 117-127; severity is always `high`). -/
def clamThreatEicar : ThreatDict :=
  ⟨"Eicar-Test-Signature", "malware",
   "ClamAV detected: Eicar-Test-Signature", "/files/sample.bin", "ClamAV",
   "Eicar-Test-Signature", "high", []⟩

/-- A ClamAV engine result with exactly one finding: the parser at
utils.py line 130 marks it `infected`. -/
def clamInfectedOne : EngineResult :=
  ⟨"infected", "ClamAV scan completed. Found 1 threats.", [clamThreatEicar]⟩

/-- A YARA environment in which compilation completes and the rule set
decides the outcome; the file is present, readable and small. -/
def yaraNoRulesEnv : YaraScanEnv :=
  ⟨.completes, true, true, true, true, some 68, 104857600, .matched []⟩

/-- A ClamAV environment in which the daemon connection fails on every
attempt. -/
def clamErrEnv : ClamEnv :=
  ⟨.failedAll "connection refused", true, true, .result none⟩

/-- A ClamAV environment in which the daemon reports exactly one FOUND
entry. -/
def clamFoundEnv : ClamEnv :=
  ⟨.connected, true, true,
   .result (some [⟨"/files/sample.bin", "FOUND", "Eicar-Test-Signature"⟩])⟩

/-- A pending scan row over an uploaded file. -/
def rec0 : ScanRecord :=
  ⟨"pending", "clean", none, 0, "/files/sample.bin"⟩

/-- A task environment: file present and readable, ClamAV reports one
finding, no YARA rules, VirusTotal disabled. -/
def envC3 : ScanFileEnv :=
  ⟨true, true, clamFoundEnv, [], yaraNoRulesEnv, false⟩

/-- A task environment whose file is missing from disk. -/
def envMissing : ScanFileEnv :=
  ⟨false, true, clamErrEnv, [], yaraNoRulesEnv, false⟩

/-- A raised `FileUploadException`. -/
def fileUploadExc : AppExc :=
  ⟨.fileUpload, "File too large", none, []⟩

/-- A deactivated YARA rule row. -/
def inactiveRule : YaraRuleRec :=
  ⟨"r1", "rule r1 dummy", false⟩

/-- A high-severity VirusTotal threat dictionary. -/
def vtHighThreat : ThreatDict :=
  ⟨"VT.Trojan.Generic", "malware", "VirusTotal detection",
   "/files/sample.bin", "VirusTotal", "multiple engines", "high", []⟩

/-! ## Helper lemmas -/

theorem threatLevelRank_le_four (c : String) : threatLevelRank c ≤ 4 := by
  unfold threatLevelRank
  split_ifs <;> omega

theorem threatLevelRank_le_three {c : String} (h : c ≠ "critical") :
    threatLevelRank c ≤ 3 := by
  unfold threatLevelRank
  split_ifs with h1 <;> first | exact absurd h1 h | omega

theorem threatLevelRank_le_two {c : String} (h1 : c ≠ "critical")
    (h2 : c ≠ "high") : threatLevelRank c ≤ 2 := by
  unfold threatLevelRank
  split_ifs with g1 g2 <;>
    first | exact absurd g1 h1 | exact absurd g2 h2 | omega

theorem threatLevelRank_le_one {c : String} (h1 : c ≠ "critical")
    (h2 : c ≠ "high") (h3 : c ≠ "medium") : threatLevelRank c ≤ 1 := by
  unfold threatLevelRank
  split_ifs with g1 g2 g3a <;>
    first
    | exact absurd g1 h1 | exact absurd g2 h2 | exact absurd g3a h3 | omega

theorem le_maxSevRank_of_mem {s : String} {severities : List String}
    (h : s ∈ severities) : threatLevelRank s ≤ maxSevRank severities := by
  induction severities with
  | nil => cases h
  | cons a l ih =>
    rcases List.mem_cons.mp h with rfl | hl
    · exact le_max_left _ _
    · exact le_trans (ih hl) (le_max_right _ _)

/-! ## C1 -/

/-- C1 as stated is false: with no engine erroring and exactly one
finding in total (a single medium-severity YARA match, which
`scan_with_yara` reports with status `infected`), `determine_threat_level`
returns `clean`, not `low` — its count-based branch is only reachable
when the YARA status is the never-produced `suspicious`. -/
theorem C1_counterexample :
    engCleanClam.status ≠ "error" ∧ yaraOneMedium.status ≠ "error" ∧
    engCleanClam.threats.length + yaraOneMedium.threats.length = 1 ∧
    determine_threat_level engCleanClam yaraOneMedium ≠ "low" ∧
    determine_threat_level engCleanClam yaraOneMedium = "clean" := by
  decide

/-- C1 amended: the count-based mapping {0,1,2,≥3} ↦
{clean, low, medium, high} holds for
`determine_threat_level_with_virustotal` provided additionally that
ClamAV did not report `infected` and that no YARA or VirusTotal finding
has severity `high` (either of those forces `high` regardless of the
count). -/
theorem C1_threat_level_counts (c y : EngineResult) (vt : List ThreatDict)
    (hcE : c.status ≠ "error") (hyE : y.status ≠ "error")
    (hcI : c.status ≠ "infected")
    (hyH : ∀ t ∈ y.threats, t.severity ≠ "high")
    (hvH : ∀ t ∈ vt, t.severity ≠ "high") :
    determine_threat_level_with_virustotal c y vt =
      if c.threats.length + y.threats.length + vt.length ≥ 3 then "high"
      else if c.threats.length + y.threats.length + vt.length = 2 then
        "medium"
      else if c.threats.length + y.threats.length + vt.length = 1 then "low"
      else "clean" := by
  have h1 : ¬(c.status = "error" ∧ y.status = "error" ∧ vt.length = 0) := by
    rintro ⟨h, -⟩
    exact hcE h
  have h2 : ¬(c.status = "infected" ∨
      vt.any (fun t => t.severity == "high") = true) := by
    rintro (h | h)
    · exact hcI h
    · rw [List.any_eq_true] at h
      obtain ⟨t, ht, hsev⟩ := h
      exact hvH t ht (by simpa using hsev)
  have hyf : y.threats.filter (fun t => t.severity == "high") = [] := by
    rw [List.filter_eq_nil_iff]
    intro t ht
    simpa using hyH t ht
  have hvf : vt.filter (fun t => t.severity == "high") = [] := by
    rw [List.filter_eq_nil_iff]
    intro t ht
    simpa using hvH t ht
  simp only [determine_threat_level_with_virustotal]
  rw [if_neg h1, if_neg h2, hyf, hvf]
  simp only [List.length_nil]
  split_ifs <;> first | rfl | omega

/-- C1 witness: one medium-severity YARA finding and clean ClamAV yield
`low`, through the amended theorem. -/
theorem C1_witness :
    determine_threat_level_with_virustotal engCleanClam yaraOneMedium [] =
      "low" := by
  rw [C1_threat_level_counts engCleanClam yaraOneMedium []
    (by decide) (by decide) (by decide) (by decide) (by decide)]
  decide

/-! ## C4 -/

/-- C4 as stated is false: the YARA engine result has status `infected`
(one medium-severity finding), yet `determine_threat_level_with_virustotal`
returns `low` and `determine_threat_level` returns `clean` — neither
function consults the YARA status for the `high` verdict, only ClamAV's
(and, for the task variant, high-severity VirusTotal findings). -/
theorem C4_counterexample :
    yaraOneMedium.status = "infected" ∧
    determine_threat_level_with_virustotal engCleanClam yaraOneMedium [] =
      "low" ∧
    determine_threat_level engCleanClam yaraOneMedium = "clean" := by
  decide

/-- C4 amended: if the ClamAV result has status `infected` or any
VirusTotal finding has severity `high`, then
`determine_threat_level_with_virustotal` returns `high` (for arbitrary
YARA results); `determine_threat_level`, which takes no VirusTotal
argument, returns `high` whenever the ClamAV result has status
`infected`. -/
theorem C4_infected_or_vt_high (c y : EngineResult) (vt : List ThreatDict)
    (h : c.status = "infected" ∨ ∃ t ∈ vt, t.severity = "high") :
    determine_threat_level_with_virustotal c y vt = "high" ∧
    (c.status = "infected" → determine_threat_level c y = "high") := by
  constructor
  · have hvt : c.status = "infected" ∨
        vt.any (fun t => t.severity == "high") = true := by
      rcases h with h | ⟨t, ht, hsev⟩
      · exact Or.inl h
      · exact Or.inr (List.any_eq_true.mpr ⟨t, ht, by simpa using hsev⟩)
    have hne : ¬(c.status = "error" ∧ y.status = "error" ∧
        vt.length = 0) := by
      rintro ⟨h1, -, h3⟩
      rcases h with h | ⟨t, ht, -⟩
      · rw [h] at h1
        exact absurd h1 (by decide)
      · rw [List.length_eq_zero] at h3
        subst h3
        cases ht
    simp only [determine_threat_level_with_virustotal]
    rw [if_neg hne, if_pos hvt]
  · intro hc
    have hne : ¬(c.status = "error" ∧ y.status = "error") := by
      rintro ⟨h1, -⟩
      rw [hc] at h1
      exact absurd h1 (by decide)
    simp only [determine_threat_level]
    rw [if_neg hne, if_pos hc]

/-- C4 witness: a single high-severity VirusTotal finding forces `high`
even with both local engines clean, and a ClamAV result with one finding
(status `infected`) forces `high` in both functions. -/
theorem C4_witness :
    determine_threat_level_with_virustotal engCleanClam engCleanYara
      [vtHighThreat] = "high" ∧
    determine_threat_level_with_virustotal clamInfectedOne engCleanYara [] =
      "high" ∧
    determine_threat_level clamInfectedOne engCleanYara = "high" :=
  ⟨(C4_infected_or_vt_high engCleanClam engCleanYara [vtHighThreat]
      (Or.inr ⟨vtHighThreat, by decide, rfl⟩)).1,
   (C4_infected_or_vt_high clamInfectedOne engCleanYara []
      (Or.inl (by decide))).1,
   (C4_infected_or_vt_high clamInfectedOne engCleanYara []
      (Or.inl (by decide))).2 (by decide)⟩

/-! ## C5 -/

/-- C5: when every engine reports status `error` and there are no
findings at all, both threat-level functions return `unknown`. -/
theorem C5_all_engines_error_unknown (c y : EngineResult)
    (vt : List ThreatDict) (hc : c.status = "error")
    (hy : y.status = "error") (hc0 : c.threats = []) (hy0 : y.threats = [])
    (hv0 : vt = []) :
    determine_threat_level c y = "unknown" ∧
    determine_threat_level_with_virustotal c y vt = "unknown" := by
  constructor
  · simp only [determine_threat_level]
    rw [if_pos ⟨hc, hy⟩]
  · simp only [determine_threat_level_with_virustotal]
    subst hv0
    rw [if_pos ⟨hc, hy, rfl⟩]

/-- C5 witness: ClamAV daemon unreachable and YARA timed out, no
findings anywhere. -/
theorem C5_witness :
    determine_threat_level engErrorClam engErrorYara = "unknown" ∧
    determine_threat_level_with_virustotal engErrorClam engErrorYara [] =
      "unknown" :=
  C5_all_engines_error_unknown engErrorClam engErrorYara []
    (by decide) (by decide) (by decide) (by decide) rfl

/-! ## C2 -/

/-- C2 as stated is false: the `post_save` handler alone is monotone,
but the completion step of `scan_file` (tasks.py lines 195-203)
overwrites `threat_level` with the engine-aggregate value
unconditionally.  Concretely, adding a critical-severity `ScanThreat`
raises the level to `critical`, and the subsequent completion step
(ClamAV infected) writes `high`, lowering it. -/
theorem C2_counterexample :
    (applyStep ⟨"clean", []⟩ (.addThreat "critical")).threat_level =
      "critical" ∧
    (applyStep (applyStep ⟨"clean", []⟩ (.addThreat "critical"))
        (.completeScan clamInfectedOne engCleanYara false)).threat_level =
      "high" ∧
    threatLevelRank "high" < threatLevelRank "critical" := by
  decide

/-- C2 amended: the `post_save` handler `update_scan_result_threat_level`
itself never lowers the threat level (clean < low < medium < high <
critical), and it changes the level only when either the scan was still
`clean` (any detection bumps clean to low) or the maximum severity among
the scan's threats strictly exceeds the current level.  The
scan-completion step, by contrast, may overwrite the level with a lower
engine-aggregate value. -/
theorem C2_handler_monotone (current : String) (severities : List String) :
    threatLevelRank current ≤
      threatLevelRank (update_scan_result_threat_level severities current) ∧
    (update_scan_result_threat_level severities current ≠ current →
      current = "clean" ∨
        threatLevelRank current < maxSevRank severities) := by
  unfold update_scan_result_threat_level
  split_ifs with h1 h2 h3 h4
  · constructor
    · have hr : threatLevelRank "critical" = 4 := by decide
      rw [hr]
      exact threatLevelRank_le_four current
    · intro _
      right
      have hm := le_maxSevRank_of_mem h1.1
      have hr : threatLevelRank "critical" = 4 := by decide
      have hc := threatLevelRank_le_three h1.2
      omega
  · obtain ⟨hhi, hnotin⟩ := h2
    simp [not_or] at hnotin
    constructor
    · have hr : threatLevelRank "high" = 3 := by decide
      rw [hr]
      exact threatLevelRank_le_three hnotin.1
    · intro _
      right
      have hm := le_maxSevRank_of_mem hhi
      have hr : threatLevelRank "high" = 3 := by decide
      have hc := threatLevelRank_le_two hnotin.1 hnotin.2
      omega
  · obtain ⟨hmi, hnotin⟩ := h3
    simp [not_or] at hnotin
    constructor
    · have hr : threatLevelRank "medium" = 2 := by decide
      rw [hr]
      exact threatLevelRank_le_two hnotin.1 hnotin.2.1
    · intro _
      right
      have hm := le_maxSevRank_of_mem hmi
      have hr : threatLevelRank "medium" = 2 := by decide
      have hc := threatLevelRank_le_one hnotin.1 hnotin.2.1 hnotin.2.2
      omega
  · constructor
    · subst h4
      decide
    · intro _
      left
      exact h4
  · constructor
    · exact le_refl _
    · intro h
      exact absurd rfl h

/-- C2 witness: a first medium-severity detection on a still-clean scan
raises the level, consistent with the amended rule. -/
theorem C2_witness :
    threatLevelRank "clean" ≤
      threatLevelRank (update_scan_result_threat_level ["medium"] "clean") ∧
    ("clean" = "clean" ∨ threatLevelRank "clean" < maxSevRank ["medium"]) :=
  ⟨(C2_handler_monotone "clean" ["medium"]).1,
   (C2_handler_monotone "clean" ["medium"]).2 (by decide)⟩

/-! ## Engine-result shape lemmas -/

theorem scan_with_clamav_threats_empty_or_infected (p : String)
    (ce : ClamEnv) :
    (scan_with_clamav p ce).threats = [] ∨
    (scan_with_clamav p ce).status = "infected" := by
  rcases ce with ⟨conn, fe, fr, so⟩
  cases conn with
  | failedAll m => exact Or.inl rfl
  | connected =>
    cases fe
    · exact Or.inl rfl
    · cases fr
      · exact Or.inl rfl
      · cases so with
        | raises m => exact Or.inl rfl
        | result r =>
          cases r with
          | none => exact Or.inl rfl
          | some items =>
            rcases eq_or_ne
              (scan_with_clamav p
                ⟨.connected, true, true, .result (some items)⟩).threats []
              with hnil | hnil
            · exact Or.inl hnil
            · refine Or.inr ?_
              have hstat : (scan_with_clamav p
                  ⟨.connected, true, true, .result (some items)⟩).status =
                  if (scan_with_clamav p
                      ⟨.connected, true, true,
                        .result (some items)⟩).threats ≠ [] then
                    "infected"
                  else "clean" := rfl
              rw [hstat, if_pos hnil]

theorem scan_with_yara_matchPhase_threats_empty_or_infected (p : String)
    (mo : YaraMatchOutcome) :
    (scan_with_yara_matchPhase p mo).threats = [] ∨
    (scan_with_yara_matchPhase p mo).status = "infected" := by
  cases mo with
  | timeout => exact Or.inl rfl
  | yaraError m => exact Or.inl rfl
  | matched ms =>
    rcases eq_or_ne (scan_with_yara_matchPhase p (.matched ms)).threats []
      with hnil | hnil
    · exact Or.inl hnil
    · refine Or.inr ?_
      have hstat : (scan_with_yara_matchPhase p (.matched ms)).status =
          if (scan_with_yara_matchPhase p (.matched ms)).threats ≠ [] then
            "infected"
          else "clean" := rfl
      rw [hstat, if_pos hnil]

theorem scan_with_yara_threats_empty_or_infected (p : String)
    (rules : List YaraRuleRec) (ye : YaraScanEnv) :
    (scan_with_yara p rules ye).threats = [] ∨
    (scan_with_yara p rules ye).status = "infected" := by
  rcases ye with ⟨ph, dbOk, cOk, fe, fr, fs, mfs, mo⟩
  cases ph with
  | raisesAll m => exact Or.inl rfl
  | completes =>
    have heq : scan_with_yara p rules ⟨.completes, dbOk, cOk, fe, fr, fs,
        mfs, mo⟩ =
        match compile_yara_rules rules dbOk cOk with
        | none => ⟨"clean", "No YARA rules available for scanning", []⟩
        | some _ =>
          if ¬fe then ⟨"error", "File not found: " ++ p, []⟩
          else if ¬fr then ⟨"error", "File not readable: " ++ p, []⟩
          else
            match fs with
            | some sz =>
              if sz > mfs then
                ⟨"skipped",
                 "File too large for YARA scan: " ++ toString sz ++ " bytes",
                 []⟩
              else scan_with_yara_matchPhase p mo
            | none => scan_with_yara_matchPhase p mo := rfl
    rw [heq]
    split
    · exact Or.inl rfl
    · split
      · exact Or.inl rfl
      · split
        · exact Or.inl rfl
        · split
          · split
            · exact Or.inl rfl
            · exact scan_with_yara_matchPhase_threats_empty_or_infected p mo
          · exact scan_with_yara_matchPhase_threats_empty_or_infected p mo

/-! ## C3 -/

/-- C3 as stated is false: with exactly one ClamAV finding and no other
engine findings, the scan is assigned threat level `high`, not `low` —
the single finding makes the ClamAV status `infected`, and that verdict
takes precedence over the count rule. -/
theorem C3_counterexample :
    (scan_with_clamav rec0.storage_path envC3.clamEnv).threats.length = 1 ∧
    (scan_with_yara rec0.storage_path envC3.yaraRules envC3.yaraEnv).threats
      = [] ∧
    (scan_file rec0 envC3).record.threat_level ≠ "low" ∧
    (scan_file rec0 envC3).record.threat_level = "high" := by
  decide

/-- C3 amended: whenever the ClamAV engine reports at least one finding
(and in particular exactly one, the other engines reporting none), the
completed scan's overall threat level is `high`. -/
theorem C3_clamav_finding_gives_high (rec : ScanRecord) (env : ScanFileEnv)
    (hex : env.fileExists = true) (hrd : env.fileReadable = true)
    (hc : (scan_with_clamav rec.storage_path env.clamEnv).threats ≠ [])
    (hy : (scan_with_yara rec.storage_path env.yaraRules env.yaraEnv).threats
      = []) :
    (scan_file rec env).record.status = "completed" ∧
    (scan_file rec env).record.threat_level = "high" := by
  have hst : (scan_with_clamav rec.storage_path env.clamEnv).status =
      "infected" :=
    (scan_with_clamav_threats_empty_or_infected _ _).resolve_left hc
  have hdict : ∀ ks : List String,
      determine_threat_level_with_virustotal_onDict
        (scan_with_clamav rec.storage_path env.clamEnv)
        (scan_with_yara rec.storage_path env.yaraRules env.yaraEnv) ks =
      .ok "high" := by
    intro ks
    simp only [determine_threat_level_with_virustotal_onDict]
    rw [if_neg, if_pos hst]
    rintro ⟨h1, -⟩
    rw [hst] at h1
    exact absurd h1 (by decide)
  simp [scan_file, hex, hrd, hdict]

/-- C3 witness: the EICAR-style scenario — ClamAV reports exactly one
finding, YARA none, VirusTotal disabled — completes with level `high`. -/
theorem C3_witness :
    (scan_file rec0 envC3).record.status = "completed" ∧
    (scan_file rec0 envC3).record.threat_level = "high" :=
  C3_clamav_finding_gives_high rec0 envC3 rfl rfl (by decide) (by decide)

/-! ## C6 -/

/-- C6: when the stored file is missing from disk, `scan_file` marks the
scan `failed` with an error message naming the missing path and returns
before invoking any scan engine. -/
theorem C6_missing_file_fails_without_engines (rec : ScanRecord)
    (env : ScanFileEnv) (h : env.fileExists = false) :
    (scan_file rec env).record.status = "failed" ∧
    (scan_file rec env).record.error_message =
      some ("File not found: " ++ rec.storage_path) ∧
    (scan_file rec env).enginesInvoked = [] := by
  simp [scan_file, h]

/-- C6 witness: a concrete scan whose file is absent fails with the
descriptive message and an empty engine-invocation list. -/
theorem C6_witness :
    (scan_file rec0 envMissing).record.status = "failed" ∧
    (scan_file rec0 envMissing).record.error_message =
      some ("File not found: " ++ rec0.storage_path) ∧
    (scan_file rec0 envMissing).enginesInvoked = [] :=
  C6_missing_file_fails_without_engines rec0 envMissing rfl

/-! ## C7 -/

/-- C7: with zero active YARA rules in the database (so compilation
yields no compiled rules) and the compilation call itself not raising,
`scan_with_yara` returns status `clean` with the message
`No YARA rules available for scanning` and no threats — not an error. -/
theorem C7_no_active_rules_clean (file_path : String)
    (rules : List YaraRuleRec) (env : YaraScanEnv)
    (hact : rules.filter (fun r => r.is_active) = [])
    (hph : env.compilePhase = .completes) :
    scan_with_yara file_path rules env =
      ⟨"clean", "No YARA rules available for scanning", []⟩ := by
  rcases env with ⟨ph, dbOk, cOk, fe, fr, fs, mfs, mo⟩
  cases ph with
  | raisesAll m => cases hph
  | completes =>
    clear hph
    have heq : scan_with_yara file_path rules
        ⟨.completes, dbOk, cOk, fe, fr, fs, mfs, mo⟩ =
        match compile_yara_rules rules dbOk cOk with
        | none => ⟨"clean", "No YARA rules available for scanning", []⟩
        | some _ =>
          if ¬fe then ⟨"error", "File not found: " ++ file_path, []⟩
          else if ¬fr then
            ⟨"error", "File not readable: " ++ file_path, []⟩
          else
            match fs with
            | some sz =>
              if sz > mfs then
                ⟨"skipped",
                 "File too large for YARA scan: " ++ toString sz ++ " bytes",
                 []⟩
              else scan_with_yara_matchPhase file_path mo
            | none => scan_with_yara_matchPhase file_path mo := rfl
    have hc : compile_yara_rules rules dbOk cOk = none := by
      simp only [compile_yara_rules, hact]
      split_ifs <;> rfl
    rw [heq, hc]

/-- C7 witness: a database containing only a deactivated rule yields the
clean no-rules result. -/
theorem C7_witness :
    scan_with_yara "/files/sample.bin" [inactiveRule] yaraNoRulesEnv =
      ⟨"clean", "No YARA rules available for scanning", []⟩ :=
  C7_no_active_rules_clean "/files/sample.bin" [inactiveRule] yaraNoRulesEnv
    (by decide) rfl

/-! ## C8 -/

/-- C8 is violated by the code: on any run that reaches the scanning
phase, `scan_file` assigns status `running` (tasks.py line 76), a value
outside the `ScanStatus` choices `pending`/`scanning`/`completed`/`failed`
declared in models.py and enumerated by the test suite
(tests/test_scanner.py line 57). -/
theorem C8_status_running_outside_choices :
    "running" ∈ (scan_file rec0 envC3).statusTrace ∧
    "running" ∉ scanStatusValues ∧
    (scan_file rec0 envMissing).statusTrace = ["running", "failed"] := by
  decide

/-! ## C9 -/

/-- C9 as stated is false for `FileUploadException`: it is a
`TrojanDefenderException` other than the four classes the claim lists,
so the claim assigns it 500, but the handler maps it to 413. -/
theorem C9_counterexample :
    (custom_exception_handler fileUploadExc).2 = 413 ∧
    (custom_exception_handler fileUploadExc).2 ≠ 500 ∧
    fileUploadExc.kind ≠ .validation ∧
    fileUploadExc.kind ≠ .authentication ∧
    fileUploadExc.kind ≠ .rateLimit ∧
    fileUploadExc.kind ≠ .externalAPI := by
  decide

/-- C9 amended: for every application exception the handler returns the
structured body (message, code defaulting to UNKNOWN_ERROR, details) and
the status mapping 400/401/429/502 for validation, authentication,
rate-limit and external-API exceptions, 413 for file-upload exceptions,
and 500 for every other `TrojanDefenderException`. -/
theorem C9_handler_mapping (e : AppExc) :
    (custom_exception_handler e).1.message = e.message ∧
    (custom_exception_handler e).1.code = e.error_code.getD "UNKNOWN_ERROR" ∧
    (custom_exception_handler e).1.details = e.details ∧
    (e.kind = .validation → (custom_exception_handler e).2 = 400) ∧
    (e.kind = .authentication → (custom_exception_handler e).2 = 401) ∧
    (e.kind = .rateLimit → (custom_exception_handler e).2 = 429) ∧
    (e.kind = .fileUpload → (custom_exception_handler e).2 = 413) ∧
    (e.kind = .externalAPI → (custom_exception_handler e).2 = 502) ∧
    (e.kind = .scanner ∨ e.kind = .threatIntelligence ∨ e.kind = .base →
      (custom_exception_handler e).2 = 500) := by
  rcases e with ⟨k, m, ec, d⟩
  cases k <;> simp [custom_exception_handler]

/-- C9 witness: a validation exception is mapped to HTTP 400 through the
mapping theorem. -/
theorem C9_witness :
    (custom_exception_handler ⟨.validation, "bad input", none, []⟩).2 =
      400 :=
  (C9_handler_mapping ⟨.validation, "bad input", none, []⟩).2.2.2.1 rfl

/-! ## C10 -/

/-- C10: both engine wrappers are total over every modelled external
outcome and always return a result with the `status`, `message` and
`threats` fields (the `EngineResult` shape); the threats list is empty
whenever the status is `error`, `clean` or `skipped`. -/
theorem C10_engine_results_shape (p : String) (ce : ClamEnv)
    (rules : List YaraRuleRec) (ye : YaraScanEnv) :
    ((scan_with_clamav p ce).status ∈
        (["error", "clean", "skipped"] : List String) →
      (scan_with_clamav p ce).threats = []) ∧
    ((scan_with_yara p rules ye).status ∈
        (["error", "clean", "skipped"] : List String) →
      (scan_with_yara p rules ye).threats = []) := by
  constructor
  · intro h
    rcases scan_with_clamav_threats_empty_or_infected p ce with h0 | h0
    · exact h0
    · rw [h0] at h
      exact absurd h (by decide)
  · intro h
    rcases scan_with_yara_threats_empty_or_infected p rules ye with h0 | h0
    · exact h0
    · rw [h0] at h
      exact absurd h (by decide)

/-- C10 witness: an unreachable ClamAV daemon (status `error`) and an
empty YARA rule set (status `clean`) both yield empty threat lists. -/
theorem C10_witness :
    (scan_with_clamav "/files/sample.bin" clamErrEnv).threats = [] ∧
    (scan_with_yara "/files/sample.bin" [] yaraNoRulesEnv).threats = [] :=
  ⟨(C10_engine_results_shape "/files/sample.bin" clamErrEnv []
      yaraNoRulesEnv).1 (by decide),
   (C10_engine_results_shape "/files/sample.bin" clamErrEnv []
      yaraNoRulesEnv).2 (by decide)⟩

end TrojanDefender
